import Mathlib

/-!
Verification of the four-meme-bundler core against its specification.

The TypeScript sources are embedded shallowly:
* `GasOptimizer` (gas-optimizer): congestion-dependent gas-price
  recommendation, urgent gas price, congestion score.
* `BatchProcessor` (batch-processor): validation, parallel group
  dispatch, retry with fee escalation, the priority batch queue and
  its timer-driven dispatcher.
* `FourMemeBundler` (bundler): launch-then-buy bundle execution.

Machine integers (`bigint`) are modelled as `ℤ`; JavaScript `number`
arithmetic is modelled exactly over `ℚ`, with `Math.floor` as
`Int.floor`.  `Math.sqrt` is an opaque nonnegative function and is
passed as a parameter.  Asynchronous network calls are replaced by
explicit outcome parameters (oracles).
-/

/-! ### GasOptimizer -/

/-- Congestion band multiplier of `calculateOptimalGasPrice`
(>0.8 → 1.5, >0.6 → 1.2, <0.3 → 0.9, else 1.0). -/
def congestionMultiplier (congestionLevel : ℚ) : ℚ :=
  if congestionLevel > 4/5 then 3/2
  else if congestionLevel > 3/5 then 6/5
  else if congestionLevel < 3/10 then 9/10
  else 1

/-- `GasOptimizer.calculateOptimalGasPrice`: applies the congestion
multiplier to the current network gas price, then the configured
buffer, then floors the result at `minGasPrice` (in gwei, converted
to wei by `* 1e9`).  The source has no upper clamp here. -/
def calculateOptimalGasPrice (congestionLevel : ℚ) (currentGasPrice : ℤ)
    (gasPriceBuffer : ℚ) (minGasPrice : ℤ) : ℤ :=
  let optimalGasPrice : ℤ := ⌊(currentGasPrice : ℚ) * congestionMultiplier congestionLevel⌋
  let bufferedGasPrice : ℤ := ⌊(optimalGasPrice : ℚ) * gasPriceBuffer⌋
  let minWei : ℤ := minGasPrice * 10 ^ 9
  if bufferedGasPrice > minWei then bufferedGasPrice else minWei

/-- Transaction purpose used by `getUrgentGasPrice`. -/
inductive UrgencyType where
  | LAUNCH
  | BUY
deriving DecidableEq

/-- Urgency multiplier of `getUrgentGasPrice` (LAUNCH → 1.5, BUY → 1.2). -/
def urgencyBaseMultiplier : UrgencyType → ℚ
  | .LAUNCH => 3/2
  | .BUY => 6/5

/-- `GasOptimizer.getUrgentGasPrice`: base recommendation
(`calculateOptimalGasPrice`), urgency multiplier, extra congestion
multiplier (>0.8 → ×1.3, >0.6 → ×1.1), then a clamp to
`[minGasPrice, maxGasPrice]` (gwei bounds, converted to wei). -/
def getUrgentGasPrice (t : UrgencyType) (congestion : ℚ) (currentGasPrice : ℤ)
    (gasPriceBuffer : ℚ) (minGasPrice maxGasPrice : ℤ) : ℤ :=
  let baseGasPrice := calculateOptimalGasPrice congestion currentGasPrice gasPriceBuffer minGasPrice
  let urgencyMultiplier : ℚ :=
    if congestion > 4/5 then urgencyBaseMultiplier t * (13/10)
    else if congestion > 3/5 then urgencyBaseMultiplier t * (11/10)
    else urgencyBaseMultiplier t
  let urgentGasPrice : ℤ := ⌊(baseGasPrice : ℚ) * urgencyMultiplier⌋
  let maxWei : ℤ := maxGasPrice * 10 ^ 9
  let minWei : ℤ := minGasPrice * 10 ^ 9
  if urgentGasPrice > maxWei then maxWei
  else if urgentGasPrice < minWei then minWei
  else urgentGasPrice

/-- JavaScript number results the congestion pipeline can produce:
an ordinary (exact rational) value, the two infinities, or NaN. -/
inductive JSVal where
  | num (q : ℚ)
  | posInf
  | negInf
  | nan
deriving DecidableEq, Repr

/-- JavaScript division for the `volatility` step: a zero denominator
(the positive zero — ℚ has no signed zero) gives NaN on a zero
numerator and a signed infinity otherwise; any other denominator gives
the exact quotient. -/
def jsDiv (x y : ℚ) : JSVal :=
  if y = 0 then
    if x = 0 then JSVal.nan
    else if x > 0 then JSVal.posInf
    else JSVal.negInf
  else JSVal.num (x / y)

/-- `volatility * 2`: NaN and the infinities propagate. -/
def jsMul2 : JSVal → JSVal
  | .num q => .num (q * 2)
  | .posInf => .posInf
  | .negInf => .negInf
  | .nan => .nan

/-- `Math.min(v, 1.0)`: NaN propagates, +Infinity caps at 1. -/
def jsMin1 : JSVal → JSVal
  | .num q => .num (min q 1)
  | .posInf => .num 1
  | .negInf => .negInf
  | .nan => .nan

/-- Whether a JavaScript result is a number lying in [0,1]. -/
def JSVal.isNumInUnit : JSVal → Bool
  | .num q => decide (0 ≤ q) && decide (q ≤ 1)
  | _ => false

/-- `GasOptimizer.getNetworkCongestion`: with fewer than 10 history
samples returns 0.5; otherwise the coefficient of variation of the
last 10 gas prices, times 2, capped at 1.  `sqrtFn` stands for the
runtime square-root function; the final division is JavaScript
division, so an all-zero window (mean 0, variance 0) yields
`sqrt(0)/0 = NaN`, which `Math.min` propagates. -/
def getNetworkCongestion (sqrtFn : ℚ → ℚ) (history : List ℚ) : JSVal :=
  if history.length < 10 then JSVal.num (1/2)
  else
    let recentPrices := history.drop (history.length - 10)
    let n : ℚ := recentPrices.length
    let avgPrice := recentPrices.sum / n
    let variance := (recentPrices.map (fun p => (p - avgPrice) ^ 2)).sum / n
    jsMin1 (jsMul2 (jsDiv (sqrtFn variance) avgPrice))

/-! ### BatchProcessor: transactions, validation, dispatch -/

/-- Status field of `BatchTransaction`. -/
inductive TxStatus where
  | PENDING
  | SENT
  | CONFIRMED
  | FAILED
  | RETRY
deriving DecidableEq, Repr

/-- `BatchTransaction`, flattened with the provider state it is validated
against: `balance` is `provider.getBalance(tx.wallet.address)`; `hasTo`
and `hasWallet` record presence of `tx.transaction.to` and `tx.wallet`.
`gasLimit = 0` models an absent (or zero, hence falsy) `gasLimit`, and
`value` is `tx.transaction.value || 0`. -/
structure BatchTransaction where
  hasTo : Bool
  hasWallet : Bool
  balance : ℤ
  gasLimit : ℤ
  value : ℤ
  gasPrice : ℤ
  priorityFee : ℤ
  nonce : ℤ
  retryCount : ℕ
  status : TxStatus
deriving DecidableEq, Repr

/-- `tx.transaction.gasLimit || 200000` (JavaScript falsiness). -/
def effectiveGasLimit (tx : BatchTransaction) : ℤ :=
  if tx.gasLimit = 0 then 200000 else tx.gasLimit

/-- The per-transaction validation test of
`BatchProcessor.validateTransactions`: the transaction is kept iff it
has a destination and a wallet and the wallet balance covers
`gasPrice * gasLimit + value`. -/
def txValid (tx : BatchTransaction) : Bool :=
  tx.hasTo && tx.hasWallet &&
    !(decide (tx.balance < tx.gasPrice * effectiveGasLimit tx + tx.value))

/-- `BatchProcessor.validateTransactions`: failing transactions are
skipped (`continue`), the rest are returned in order.  The nonce
refresh performed there does not affect membership and is not
modelled. -/
def validateTransactions (txs : List BatchTransaction) : List BatchTransaction :=
  txs.filter (fun tx => txValid tx)

/-- The subset of `BatchProcessorConfig` the dispatch logic reads. -/
structure BatchProcessorConfig where
  maxBatchSize : ℕ
  parallelBatches : ℕ
  retryAttempts : ℕ
  gasPriceIncrement : ℚ
  priorityFeeIncrement : ℚ
deriving Repr

/-- Outcome of one `executeTransaction` call: `ok` is a receipt with
`status === 1` (carrying `gasUsed` and `gasPrice`), `fail` is a
returned `{success: false}` (failed receipt or caught send error),
`thrown` is an exception escaping into the per-transaction `catch` of
`processTransactionBatch`. -/
inductive ExecOutcome where
  | ok (gasUsed gasPrice : ℤ)
  | fail
  | thrown
deriving DecidableEq, Repr

/-- A transaction together with the network outcomes of its first
attempt and (if reached) its retry attempt. -/
abbrev TxExec := BatchTransaction × ExecOutcome × Bool

/-- `BatchProcessor.retryTransaction`: increments `retryCount`, marks
`RETRY`, escalates `gasPrice` and `priorityFee` by
`Math.floor(Number(fee) * increment)`, re-executes, and settles the
status to `CONFIRMED` or `FAILED` (the internal `catch` also yields
`FAILED`). -/
def retryTransaction (cfg : BatchProcessorConfig) (tx : BatchTransaction)
    (retrySucceeds : Bool) : BatchTransaction :=
  let escalated : BatchTransaction :=
    { tx with
      retryCount := tx.retryCount + 1
      status := TxStatus.RETRY
      gasPrice := ⌊(tx.gasPrice : ℚ) * cfg.gasPriceIncrement⌋
      priorityFee := ⌊(tx.priorityFee : ℚ) * cfg.priorityFeeIncrement⌋ }
  { escalated with
    status := if retrySucceeds then TxStatus.CONFIRMED else TxStatus.FAILED }

/-- The per-transaction body of `BatchProcessor.processTransactionBatch`:
first-attempt success gives `CONFIRMED`; failure gives `FAILED` and, if
`retryCount < retryAttempts`, one retry via `retryTransaction`; an
exception in the closure gives `FAILED`. -/
def processOneTransaction (cfg : BatchProcessorConfig) (tx : BatchTransaction)
    (firstOutcome : ExecOutcome) (retrySucceeds : Bool) : BatchTransaction :=
  match firstOutcome with
  | .ok _ _ => { tx with status := TxStatus.CONFIRMED }
  | .fail =>
    let failed := { tx with status := TxStatus.FAILED }
    if failed.retryCount < cfg.retryAttempts then
      retryTransaction cfg failed retrySucceeds
    else failed
  | .thrown => { tx with status := TxStatus.FAILED }

/-- Final transaction states of one parallel group, as mutated by
`processTransactionBatch`. -/
def processTransactionBatchStatuses (cfg : BatchProcessorConfig)
    (items : List TxExec) : List BatchTransaction :=
  items.map (fun it => processOneTransaction cfg it.1 it.2.1 it.2.2)

/-- Aggregate counters returned by `processTransactionsInBatches`. -/
structure AggregateResult where
  successfulTxs : ℕ
  failedTxs : ℕ
  totalGasUsed : ℤ
  totalGasPrice : ℤ
deriving DecidableEq, Repr

/-- The all-zero accumulator. -/
def emptyAgg : AggregateResult := ⟨0, 0, 0, 0⟩

/-- Pointwise sum of aggregate counters. -/
def combineAgg (a b : AggregateResult) : AggregateResult :=
  ⟨a.successfulTxs + b.successfulTxs, a.failedTxs + b.failedTxs,
   a.totalGasUsed + b.totalGasUsed, a.totalGasPrice + b.totalGasPrice⟩

/-- Counter updates of `processTransactionBatch`: only the FIRST
attempt moves the counters (a retry, successful or not, does not). -/
def processTransactionBatchCounts (items : List TxExec) : AggregateResult :=
  items.foldl
    (fun acc it =>
      match it.2.1 with
      | .ok gu gp =>
        { acc with
          successfulTxs := acc.successfulTxs + 1
          totalGasUsed := acc.totalGasUsed + gu
          totalGasPrice := acc.totalGasPrice + gp }
      | .fail => { acc with failedTxs := acc.failedTxs + 1 }
      | .thrown => { acc with failedTxs := acc.failedTxs + 1 })
    emptyAgg

/-- Consecutive chunks of size `k` (behaves as `k = 1` when `k = 0`;
the source never uses `k = 0`, where the loop would not advance). -/
def chunkList {α : Type} (k : ℕ) : List α → List (List α)
  | [] => []
  | x :: xs => (x :: xs.take (k - 1)) :: chunkList k (xs.drop (k - 1))
termination_by l => l.length
decreasing_by simp [List.length_drop]; omega

/-- The parallel groups formed by `processTransactionsInBatches`:
outer strides of `maxBatchSize * parallelBatches`, each split into
groups of `maxBatchSize`. -/
def innerGroups (cfg : BatchProcessorConfig) (items : List TxExec) :
    List (List TxExec) :=
  ((chunkList (cfg.maxBatchSize * cfg.parallelBatches) items).map
    (chunkList cfg.maxBatchSize)).flatten

/-- `BatchProcessor.processTransactionsInBatches`: sums each group's
counters; a group whose promise rejects (`groupRejects` on the group
index) contributes `failedTxs += maxBatchSize` — the configured batch
size, not the group's length. -/
def processTransactionsInBatches (cfg : BatchProcessorConfig)
    (items : List TxExec) (groupRejects : ℕ → Bool) : AggregateResult :=
  ((innerGroups cfg items).enum).foldl
    (fun acc gi =>
      if groupRejects gi.1 then
        { acc with failedTxs := acc.failedTxs + cfg.maxBatchSize }
      else combineAgg acc (processTransactionBatchCounts gi.2))
    emptyAgg

/-- Result record built by `BatchProcessor.processBatch`. -/
structure BatchOutcome where
  attempted : List BatchTransaction
  finalTxs : List BatchTransaction
  agg : AggregateResult
  success : Bool
deriving DecidableEq, Repr

/-- `BatchProcessor.processBatch`: validates, throws
`'No valid transactions in batch'` when nothing survives validation,
otherwise dispatches exactly the valid transactions and reports
`success := successfulTxs > 0`. -/
def processBatch (cfg : BatchProcessorConfig) (items : List TxExec)
    (groupRejects : ℕ → Bool) : Except String BatchOutcome :=
  let validItems := items.filter (fun it => txValid it.1)
  if validItems.length = 0 then .error "No valid transactions in batch"
  else
    let agg := processTransactionsInBatches cfg validItems groupRejects
    .ok
      { attempted := validItems.map (fun it => it.1)
        finalTxs := processTransactionBatchStatuses cfg validItems
        agg := agg
        success := decide (agg.successfulTxs > 0) }

/-- The transactions a `processBatch` call dispatched (none on the
error path). -/
def attemptedTxs (e : Except String BatchOutcome) : List BatchTransaction :=
  match e with
  | .ok r => r.attempted
  | .error _ => []

/-! ### BatchProcessor: priority queue and dispatcher -/

/-- Batch priority levels. -/
inductive BatchPriority where
  | LOW
  | MEDIUM
  | HIGH
  | CRITICAL
deriving DecidableEq, Repr

/-- The numeric `priorityOrder` table of `sortBatchQueue`. -/
def priorityOrder : BatchPriority → ℕ
  | .CRITICAL => 4
  | .HIGH => 3
  | .MEDIUM => 2
  | .LOW => 1

/-- Status field of a queued batch. -/
inductive QueueStatus where
  | QUEUED
  | PROCESSING
  | COMPLETED
  | FAILED
  | TIMEOUT
deriving DecidableEq, Repr

/-- A `BatchQueue` entry; `timeout` is the absolute deadline
`createdAt + batchTimeout` set by `queueBatch`. -/
structure BatchQueueEntry where
  id : ℕ
  priority : BatchPriority
  createdAt : ℤ
  timeout : ℤ
  status : QueueStatus
deriving DecidableEq, Repr

/-- The order induced by the comparator in `sortBatchQueue`:
`a` may precede `b` iff `a` has strictly higher priority, or equal
priority and an earlier-or-equal `createdAt` (FIFO tie-break). -/
def batchBefore (a b : BatchQueueEntry) : Prop :=
  priorityOrder b.priority < priorityOrder a.priority ∨
    (priorityOrder a.priority = priorityOrder b.priority ∧ a.createdAt ≤ b.createdAt)

instance (a b : BatchQueueEntry) : Decidable (batchBefore a b) := by
  unfold batchBefore
  infer_instance

instance : IsTotal BatchQueueEntry batchBefore :=
  ⟨fun a b => by unfold batchBefore; omega⟩

instance : IsTrans BatchQueueEntry batchBefore :=
  ⟨fun a b c hab hbc => by unfold batchBefore at hab hbc ⊢; omega⟩

/-- `BatchProcessor.sortBatchQueue`: JavaScript `Array.sort` with the
priority/createdAt comparator; modelled as a stable sort with respect
to `batchBefore` (ECMAScript guarantees a stable sort consistent with
the comparator). -/
def sortBatchQueue (q : List BatchQueueEntry) : List BatchQueueEntry :=
  List.insertionSort batchBefore q

/-- `BatchProcessor.queueBatch`: append the new entry, then sort. -/
def queueBatch (q : List BatchQueueEntry) (b : BatchQueueEntry) :
    List BatchQueueEntry :=
  sortBatchQueue (q ++ [b])

/-- Result of one dispatcher tick (`processBatchQueue`). -/
structure TickResult where
  queue : List BatchQueueEntry
  popped : Option BatchQueueEntry
  txsAttempted : ℕ
deriving DecidableEq, Repr

/-- `BatchProcessor.processBatchQueue` (one timer tick): pops the head
batch; if `now > timeout` it is marked `TIMEOUT` and nothing runs;
otherwise it is processed (the transient `PROCESSING` mark is
subsumed by the final status) and marked `COMPLETED` on
`result.success` and `FAILED` otherwise (also on an exception from
`processBatch`).  `execSuccess`/`execAttempts` stand for the outcome
and transaction count of the inner `processBatch` call. -/
def processBatchQueue (now : ℤ) (q : List BatchQueueEntry)
    (execSuccess : BatchQueueEntry → Bool)
    (execAttempts : BatchQueueEntry → ℕ) : TickResult :=
  match q with
  | [] => ⟨[], none, 0⟩
  | batch :: rest =>
    if now > batch.timeout then
      ⟨rest, some { batch with status := QueueStatus.TIMEOUT }, 0⟩
    else
      ⟨rest,
        some { batch with
          status := if execSuccess batch then QueueStatus.COMPLETED
                    else QueueStatus.FAILED },
        execAttempts batch⟩

/-! ### FourMemeBundler -/

/-- Lifecycle of a `LaunchBundle`. -/
inductive BundleStatus where
  | PENDING
  | LAUNCHING
  | BUYING
  | COMPLETED
  | FAILED
deriving DecidableEq, Repr

/-- `FourMemeBundler.executeLaunchTransaction`: succeeds iff the send
does not throw and the awaited receipt has `status === 1`. -/
def executeLaunchTransaction (sendThrows : Bool) (receiptStatus : ℕ) : Bool :=
  !sendThrows && (receiptStatus == 1)

/-- Observable effect of `FourMemeBundler.executeLaunchBundle`. -/
structure BundleExecution where
  statusTrace : List BundleStatus
  finalStatus : BundleStatus
  buysAttempted : ℕ
  successfulBuys : ℕ
  failedBuys : ℕ
deriving DecidableEq, Repr

/-- `FourMemeBundler.executeLaunchBundle`: from `PENDING`, set
`LAUNCHING` and run the launch transaction.  On failure set `FAILED`
and return with zero buys attempted.  On success set `BUYING`, submit
every buy (`buyOutcomes` lists each buy's confirmation result,
`false` covering both a failed receipt and a caught per-buy error),
then set `COMPLETED` iff at least one buy succeeded, else `FAILED`. -/
def executeLaunchBundle (sendThrows : Bool) (receiptStatus : ℕ)
    (buyOutcomes : List Bool) : BundleExecution :=
  if executeLaunchTransaction sendThrows receiptStatus then
    let successfulBuys := (buyOutcomes.filter (fun b => b)).length
    let failedBuys := (buyOutcomes.filter (fun b => !b)).length
    let final := if successfulBuys > 0 then BundleStatus.COMPLETED
                 else BundleStatus.FAILED
    ⟨[BundleStatus.PENDING, BundleStatus.LAUNCHING, BundleStatus.BUYING, final],
      final, buyOutcomes.length, successfulBuys, failedBuys⟩
  else
    ⟨[BundleStatus.PENDING, BundleStatus.LAUNCHING, BundleStatus.FAILED],
      BundleStatus.FAILED, 0, 0, 0⟩

/-! ### Concrete instances for scenarios, counterexamples and witnesses -/

/-- The default dispatch configuration (`loadBatchConfig` defaults):
`maxBatchSize = 10`, `parallelBatches = 3`, `retryAttempts = 3`,
both fee increments `1.1`. -/
def defaultBatchConfig : BatchProcessorConfig :=
  ⟨10, 3, 3, 11/10, 11/10⟩

/-- A plain valid transaction (destination and wallet present, ample
balance). -/
def sampleTx : BatchTransaction :=
  ⟨true, true, 10 ^ 18, 200000, 0, 5 * 10 ^ 9, 10 ^ 9, 0, 0, TxStatus.PENDING⟩

/-- A transaction with a 5-wei gas price, used to exhibit the floor in
the retry escalation. -/
def smallGasTx : BatchTransaction :=
  ⟨true, true, 10 ^ 18, 200000, 0, 5, 1, 0, 0, TxStatus.PENDING⟩

/-- A transaction with no destination address: dropped by validation. -/
def txNoTo : BatchTransaction :=
  ⟨false, true, 10 ^ 18, 200000, 0, 5 * 10 ^ 9, 10 ^ 9, 0, 0, TxStatus.PENDING⟩

/-- Scenario B transaction whose balance (52) is one wei short of
`gasPrice * gasLimit + value = 5 * 10 + 3 = 53`. -/
def txLowBalance : BatchTransaction :=
  ⟨true, true, 52, 10, 3, 5, 1, 0, 0, TxStatus.PENDING⟩

/-- Scenario B batch: two valid transactions and one with insufficient
balance, with their network outcomes. -/
def scenarioBItems : List TxExec :=
  [(sampleTx, ExecOutcome.ok 21000 (5 * 10 ^ 9), true),
   (txLowBalance, ExecOutcome.fail, false),
   ({ sampleTx with nonce := 1 }, ExecOutcome.ok 21000 (5 * 10 ^ 9), true)]

/-- A square-root stub used to instantiate `getNetworkCongestion` at a
concrete input. -/
def zeroSqrt : ℚ → ℚ := fun _ => 0

/-- Scenario D batch queued first, with LOW priority. -/
def scenarioLow : BatchQueueEntry := ⟨1, BatchPriority.LOW, 1, 1000, QueueStatus.QUEUED⟩

/-- Scenario D batch queued second, with HIGH priority. -/
def scenarioHigh : BatchQueueEntry := ⟨2, BatchPriority.HIGH, 2, 1000, QueueStatus.QUEUED⟩

/-- Scenario D batch queued third, with MEDIUM priority. -/
def scenarioMed : BatchQueueEntry := ⟨3, BatchPriority.MEDIUM, 3, 1000, QueueStatus.QUEUED⟩

/-- Scenario E batch: enqueued with its deadline already 1ms in the
past relative to dispatch time 1000. -/
def scenarioExpired : BatchQueueEntry := ⟨7, BatchPriority.MEDIUM, 990, 999, QueueStatus.QUEUED⟩

/-! ### Theorems -/

/-- C1 counterexample: with congestion 0.5 (multiplier 1.0), the
default buffer 1.1, network price 100 gwei and limits
[1 gwei, 20 gwei], the base-fee recommendation is 110 gwei — far above
`maxGasPrice`.  `calculateOptimalGasPrice` has no upper clamp, so the
claim that the base-fee recommendation always lies in
[minGasPrice, maxGasPrice] is false. -/
theorem calculateOptimalGasPrice_exceeds_max :
    calculateOptimalGasPrice (1/2) (100 * 10 ^ 9) (11/10) 1 = 110 * 10 ^ 9 ∧
      (20 : ℤ) * 10 ^ 9 < calculateOptimalGasPrice (1/2) (100 * 10 ^ 9) (11/10) 1 := by
  have h : calculateOptimalGasPrice (1/2) (100 * 10 ^ 9) (11/10) 1 = 110 * 10 ^ 9 := by
    norm_num [calculateOptimalGasPrice, congestionMultiplier]
  exact ⟨h, by rw [h]; norm_num⟩

/-- C1 (amended): for every congestion input, network price, buffer and
`minGasPrice`, the base-fee recommendation applies the congestion
multiplier, then the buffer, then clamps from below at `minGasPrice`
only: it never returns below `minGasPrice`, but it has no upper clamp
(the upper clamp exists only in `getUrgentGasPrice`). -/
theorem calculateOptimalGasPrice_ge_min (c : ℚ) (g : ℤ) (b : ℚ) (m : ℤ) :
    m * 10 ^ 9 ≤ calculateOptimalGasPrice c g b m := by
  unfold calculateOptimalGasPrice
  dsimp only
  split
  · omega
  · exact le_refl _

/-- C9 (Scenario A): with network base price 5 gwei, congestion 0.85,
no extra buffer, urgency LAUNCH, and limits [1 gwei, 20 gwei], the
urgent-fee recommendation is exactly 14625000000 wei — the congestion
band (×1.5), launch urgency (×1.5) and extra congestion band (×1.3)
compose to ×2.925, and the result lies within the limits. -/
theorem getUrgentGasPrice_scenarioA :
    getUrgentGasPrice UrgencyType.LAUNCH (17/20) (5 * 10 ^ 9) 1 1 20 = 14625000000 := by
  norm_num [getUrgentGasPrice, calculateOptimalGasPrice, congestionMultiplier,
    urgencyBaseMultiplier]

/-- C3 counterexample: a history of ten zero-price samples (reachable,
since a null `feeData.gasPrice` is recorded as 0) has mean 0 and
variance 0, so the source computes `Math.sqrt(0)/0 = NaN` and returns
`Math.min(NaN, 1.0) = NaN` — not a number in [0,1], refuting the
universal claim that the congestion score always lies in [0,1]. -/
theorem getNetworkCongestion_nan_counterexample :
    getNetworkCongestion zeroSqrt [0, 0, 0, 0, 0, 0, 0, 0, 0, 0] = JSVal.nan ∧
      (getNetworkCongestion zeroSqrt [0, 0, 0, 0, 0, 0, 0, 0, 0, 0]).isNumInUnit = false := by
  have h : getNetworkCongestion zeroSqrt [0, 0, 0, 0, 0, 0, 0, 0, 0, 0] = JSVal.nan := by
    norm_num [getNetworkCongestion, jsDiv, jsMul2, jsMin1, zeroSqrt]
  exact ⟨h, by rw [h]; rfl⟩

/-- C3 (amended): with fewer than 10 samples the congestion score is
exactly 0.5; and whenever the 10-sample window contains a positive
price (nonnegative prices, square root nonnegative on nonnegative
inputs), the score is an ordinary number lying in [0,1].  When the
whole window is zero the source instead returns NaN. -/
theorem getNetworkCongestion_bounds (sqrtFn : ℚ → ℚ) (history : List ℚ)
    (hsqrt : ∀ x, 0 ≤ x → 0 ≤ sqrtFn x) (hmem : ∀ p ∈ history, 0 ≤ p) :
    (history.length < 10 → getNetworkCongestion sqrtFn history = JSVal.num (1/2)) ∧
      ((∃ p ∈ history.drop (history.length - 10), 0 < p) →
        ∃ q : ℚ, getNetworkCongestion sqrtFn history = JSVal.num q ∧ 0 ≤ q ∧ q ≤ 1) := by
  constructor
  · intro hl
    unfold getNetworkCongestion
    rw [if_pos hl]
  · rintro ⟨p, hp, hppos⟩
    unfold getNetworkCongestion
    by_cases hl : history.length < 10
    · rw [if_pos hl]
      exact ⟨1/2, rfl, by norm_num, by norm_num⟩
    · rw [if_neg hl]
      dsimp only
      set w := history.drop (history.length - 10) with hw
      have hwmem : ∀ x ∈ w, 0 ≤ x := fun x hx => hmem x (List.drop_subset _ _ hx)
      have hsumpos : 0 < w.sum := lt_of_lt_of_le hppos (List.single_le_sum hwmem p hp)
      have hnpos : 0 < (w.length : ℚ) := by
        have hne : w ≠ [] := List.ne_nil_of_mem hp
        exact_mod_cast List.length_pos.mpr hne
      have havg : 0 < w.sum / (w.length : ℚ) := div_pos hsumpos hnpos
      have hvar : 0 ≤ (w.map (fun x => (x - w.sum / (w.length : ℚ)) ^ 2)).sum /
          (w.length : ℚ) := by
        apply div_nonneg _ (le_of_lt hnpos)
        apply List.sum_nonneg
        intro x hx
        obtain ⟨y, hy, rfl⟩ := List.mem_map.mp hx
        positivity
      have hx : 0 ≤ sqrtFn ((w.map (fun x => (x - w.sum / (w.length : ℚ)) ^ 2)).sum /
          (w.length : ℚ)) := hsqrt _ hvar
      rw [jsDiv, if_neg (ne_of_gt havg)]
      refine ⟨min (sqrtFn ((w.map (fun x => (x - w.sum / (w.length : ℚ)) ^ 2)).sum /
          (w.length : ℚ)) / (w.sum / (w.length : ℚ)) * 2) 1, rfl, ?_, min_le_right _ _⟩
      exact le_min (mul_nonneg (div_nonneg hx (le_of_lt havg)) (by norm_num)) (by norm_num)

/-- Witness for C3: the empty history gives exactly 0.5, and a window
of ten samples of price 1 gives an ordinary score in [0,1]. -/
theorem getNetworkCongestion_bounds_witness :
    getNetworkCongestion zeroSqrt [] = JSVal.num (1/2) ∧
      ∃ q : ℚ, getNetworkCongestion zeroSqrt [1, 1, 1, 1, 1, 1, 1, 1, 1, 1] = JSVal.num q ∧
        0 ≤ q ∧ q ≤ 1 :=
  ⟨(getNetworkCongestion_bounds zeroSqrt [] (fun _ _ => le_refl 0)
      (fun p hp => absurd hp (List.not_mem_nil p))).1 (by norm_num),
   (getNetworkCongestion_bounds zeroSqrt [1, 1, 1, 1, 1, 1, 1, 1, 1, 1]
      (fun _ _ => le_refl 0) (by intro p hp; fin_cases hp <;> norm_num)).2
     ⟨1, by simp, one_pos⟩⟩

/-- C2: the bundle's status trace contains `BUYING` only when the
launch transaction succeeded (receipt status 1, no send error); when
the launch fails the bundle goes directly to `FAILED`, no buy is ever
submitted, and `BUYING` never appears. -/
theorem executeLaunchBundle_buying_requires_confirmed (sendThrows : Bool)
    (receiptStatus : ℕ) (buyOutcomes : List Bool) :
    (BundleStatus.BUYING ∈ (executeLaunchBundle sendThrows receiptStatus buyOutcomes).statusTrace →
        executeLaunchTransaction sendThrows receiptStatus = true) ∧
      (executeLaunchTransaction sendThrows receiptStatus = false →
        (executeLaunchBundle sendThrows receiptStatus buyOutcomes).finalStatus = BundleStatus.FAILED ∧
          (executeLaunchBundle sendThrows receiptStatus buyOutcomes).buysAttempted = 0 ∧
          BundleStatus.BUYING ∉ (executeLaunchBundle sendThrows receiptStatus buyOutcomes).statusTrace) := by
  cases hB : executeLaunchTransaction sendThrows receiptStatus with
  | false =>
    constructor
    · intro hmem
      simp [executeLaunchBundle, hB] at hmem
    · intro _
      refine ⟨?_, ?_, ?_⟩ <;> simp [executeLaunchBundle, hB]
  | true =>
    constructor
    · intro _
      rfl
    · intro hf
      exact absurd hf (by simp)

/-- Witness for C2: a launch whose send throws ends the bundle in
`FAILED` with zero buys attempted. -/
theorem executeLaunchBundle_buying_requires_confirmed_witness :
    (executeLaunchBundle true 0 [true, true]).finalStatus = BundleStatus.FAILED ∧
      (executeLaunchBundle true 0 [true, true]).buysAttempted = 0 :=
  ⟨((executeLaunchBundle_buying_requires_confirmed true 0 [true, true]).2 rfl).1,
   ((executeLaunchBundle_buying_requires_confirmed true 0 [true, true]).2 rfl).2.1⟩

/-- C10: every transaction that enters the dispatch of
`processTransactionBatch` ends with a terminal status — `CONFIRMED` or
`FAILED` — on every success, failure, retry and exception path; none is
left at `PENDING`, `SENT` or `RETRY`. -/
theorem processTransactionBatchStatuses_terminal (cfg : BatchProcessorConfig)
    (items : List TxExec) (tx : BatchTransaction)
    (htx : tx ∈ processTransactionBatchStatuses cfg items) :
    tx.status = TxStatus.CONFIRMED ∨ tx.status = TxStatus.FAILED := by
  obtain ⟨it, hit, rfl⟩ := List.mem_map.mp htx
  unfold processOneTransaction
  cases it.2.1 with
  | ok gu gp => left; rfl
  | fail =>
    dsimp only
    split
    · unfold retryTransaction
      dsimp only
      cases it.2.2 <;> simp
    · right; rfl
  | thrown => right; rfl

/-- Witness for C10: a concrete first-attempt success ends `CONFIRMED`. -/
theorem processTransactionBatchStatuses_terminal_witness :
    (processOneTransaction defaultBatchConfig sampleTx (ExecOutcome.ok 21000 (5 * 10 ^ 9)) true).status
        = TxStatus.CONFIRMED ∨
      (processOneTransaction defaultBatchConfig sampleTx (ExecOutcome.ok 21000 (5 * 10 ^ 9)) true).status
        = TxStatus.FAILED :=
  processTransactionBatchStatuses_terminal defaultBatchConfig
    [(sampleTx, ExecOutcome.ok 21000 (5 * 10 ^ 9), true)] _
    (by simp [processTransactionBatchStatuses])

/-- C6 counterexample: with a gas price of 5 wei and the default
increment 1.1, the retried gas price is `Math.floor(5 * 1.1) = 5`, not
the exact product 5.5 the claim asserts; the escalation rounds down to
an integer. -/
theorem retryTransaction_floor_counterexample :
    (retryTransaction defaultBatchConfig smallGasTx false).gasPrice = 5 ∧
      ((retryTransaction defaultBatchConfig smallGasTx false).gasPrice : ℚ)
        ≠ (smallGasTx.gasPrice : ℚ) * defaultBatchConfig.gasPriceIncrement := by
  constructor <;> norm_num [retryTransaction, defaultBatchConfig, smallGasTx]

/-- C6 (amended): each retry sets
`gasPrice' = ⌊gasPrice × gasPriceIncrement⌋`, which with increment ≥ 1
and a nonnegative fee is non-decreasing; `retryCount` grows by exactly
one per retry and never exceeds `retryAttempts`; once
`retryCount = retryAttempts` a failing transaction is terminal `FAILED`
with no further retry. -/
theorem retryTransaction_escalation (cfg : BatchProcessorConfig)
    (tx : BatchTransaction) (ro : Bool)
    (hg : 0 ≤ tx.gasPrice) (hinc : 1 ≤ cfg.gasPriceIncrement) :
    ((retryTransaction cfg tx ro).gasPrice = ⌊(tx.gasPrice : ℚ) * cfg.gasPriceIncrement⌋ ∧
        tx.gasPrice ≤ (retryTransaction cfg tx ro).gasPrice ∧
        (retryTransaction cfg tx ro).retryCount = tx.retryCount + 1) ∧
      (∀ o1 ro2, tx.retryCount ≤ cfg.retryAttempts →
        (processOneTransaction cfg tx o1 ro2).retryCount ≤ cfg.retryAttempts) ∧
      (tx.retryCount = cfg.retryAttempts → ∀ ro2,
        (processOneTransaction cfg tx ExecOutcome.fail ro2).status = TxStatus.FAILED ∧
          (processOneTransaction cfg tx ExecOutcome.fail ro2).retryCount = tx.retryCount) := by
  refine ⟨⟨rfl, ?_, rfl⟩, ?_, ?_⟩
  · have hmul : (tx.gasPrice : ℚ) * 1 ≤ (tx.gasPrice : ℚ) * cfg.gasPriceIncrement :=
      mul_le_mul_of_nonneg_left hinc (by exact_mod_cast hg)
    exact Int.le_floor.mpr (by linarith)
  · intro o1 ro2 hle
    cases o1 with
    | ok gu gp => exact hle
    | fail =>
      unfold processOneTransaction
      dsimp only
      split
      · next hlt => unfold retryTransaction; dsimp only; omega
      · exact hle
    | thrown => exact hle
  · intro heq ro2
    unfold processOneTransaction
    dsimp only
    rw [if_neg (by omega)]
    exact ⟨rfl, rfl⟩

/-- Witness for C6: the 5-wei transaction under the default config —
fee non-decreasing, retry count bumped by one. -/
theorem retryTransaction_escalation_witness :
    smallGasTx.gasPrice ≤ (retryTransaction defaultBatchConfig smallGasTx false).gasPrice ∧
      (retryTransaction defaultBatchConfig smallGasTx false).retryCount
        = smallGasTx.retryCount + 1 :=
  ⟨(retryTransaction_escalation defaultBatchConfig smallGasTx false
      (by norm_num [smallGasTx]) (by norm_num [defaultBatchConfig])).1.2.1,
   (retryTransaction_escalation defaultBatchConfig smallGasTx false
      (by norm_num [smallGasTx]) (by norm_num [defaultBatchConfig])).1.2.2⟩

/-- C4: evaluation at the failing input.  A batch of one valid
transaction under the default config forms a single parallel group of
size 1; when that group's processing throws, the aggregate counts
`failedTxs = maxBatchSize = 10`, not the group's size 1 — the code adds
the configured batch size rather than the number of transactions in
the thrown group. -/
theorem processTransactionsInBatches_overcounts_thrown_group :
    (processTransactionsInBatches defaultBatchConfig
        [(sampleTx, ExecOutcome.fail, false)] (fun _ => true)).failedTxs = 10 ∧
      ([(sampleTx, ExecOutcome.fail, false)] : List TxExec).length = 1 := by
  constructor
  · simp [processTransactionsInBatches, innerGroups, chunkList, defaultBatchConfig, emptyAgg]
  · rfl

/-- C5 counterexample: when every transaction of the batch fails
validation (here: the only transaction has no destination address),
`processBatch` does not proceed with the remainder — it throws
`'No valid transactions in batch'`, aborting the batch. -/
theorem processBatch_aborts_when_all_invalid :
    processBatch defaultBatchConfig [(txNoTo, ExecOutcome.fail, false)] (fun _ => false)
      = Except.error "No valid transactions in batch" := by
  simp [processBatch, txValid, txNoTo]

/-- C5 (amended): provided at least one transaction passes validation,
transactions failing validation are silently excluded without aborting
the batch: `processBatch` succeeds, dispatches exactly the
validation-surviving transactions, and every dispatched transaction is
valid (an excluded one is never attempted).  If none survive,
`processBatch` throws instead. -/
theorem processBatch_excludes_invalid (cfg : BatchProcessorConfig)
    (items : List TxExec) (gr : ℕ → Bool)
    (h : ∃ it ∈ items, txValid it.1 = true) :
    (processBatch cfg items gr).isOk = true ∧
      attemptedTxs (processBatch cfg items gr)
        = validateTransactions (items.map (fun it => it.1)) ∧
      (∀ tx ∈ attemptedTxs (processBatch cfg items gr), txValid tx = true) := by
  obtain ⟨it, hit, hvalid⟩ := h
  have hne : ¬((items.filter (fun it => txValid it.1)).length = 0) := by
    intro hlen
    rw [List.length_eq_zero] at hlen
    have hmem : it ∈ items.filter (fun it => txValid it.1) :=
      List.mem_filter.mpr ⟨hit, hvalid⟩
    rw [hlen] at hmem
    exact absurd hmem (List.not_mem_nil it)
  unfold processBatch
  dsimp only
  rw [if_neg hne]
  refine ⟨rfl, ?_, ?_⟩
  · show (items.filter (fun it => txValid it.1)).map (fun it => it.1)
      = (items.map (fun it => it.1)).filter (fun tx => txValid tx)
    rw [List.filter_map]
    rfl
  · intro tx htx
    simp only [attemptedTxs] at htx
    obtain ⟨it2, hit2, rfl⟩ := List.mem_map.mp htx
    exact (List.mem_filter.mp hit2).2

/-- Witness for C5 (Scenario B): a batch of three transactions, one
with insufficient balance — `processBatch` succeeds and dispatches
exactly the other two. -/
theorem processBatch_excludes_invalid_witness :
    (processBatch defaultBatchConfig scenarioBItems (fun _ => false)).isOk = true ∧
      attemptedTxs (processBatch defaultBatchConfig scenarioBItems (fun _ => false))
        = [sampleTx, { sampleTx with nonce := 1 }] := by
  have h := processBatch_excludes_invalid defaultBatchConfig scenarioBItems (fun _ => false)
    ⟨(sampleTx, ExecOutcome.ok 21000 (5 * 10 ^ 9), true), by simp [scenarioBItems], by decide⟩
  exact ⟨h.1, h.2.1.trans (by decide)⟩

/-- C7: a dispatch tick that pops a batch whose deadline has passed
marks it `TIMEOUT`, attempts zero of its transactions, and removes it
from the queue without re-enqueueing (no batch-level retry). -/
theorem processBatchQueue_timeout (now : ℤ) (batch : BatchQueueEntry)
    (rest : List BatchQueueEntry) (es : BatchQueueEntry → Bool)
    (ea : BatchQueueEntry → ℕ) (h : now > batch.timeout) :
    (processBatchQueue now (batch :: rest) es ea).popped
        = some { batch with status := QueueStatus.TIMEOUT } ∧
      (processBatchQueue now (batch :: rest) es ea).txsAttempted = 0 ∧
      (processBatchQueue now (batch :: rest) es ea).queue = rest := by
  unfold processBatchQueue
  dsimp only
  rw [if_pos h]
  exact ⟨rfl, rfl, rfl⟩

/-- Witness for C7 (Scenario E): a batch whose deadline (999) is 1ms
before the tick time (1000) is timed out on the first tick with zero
transactions processed. -/
theorem processBatchQueue_timeout_witness :
    (processBatchQueue 1000 [scenarioExpired] (fun _ => true) (fun _ => 5)).popped
        = some { scenarioExpired with status := QueueStatus.TIMEOUT } ∧
      (processBatchQueue 1000 [scenarioExpired] (fun _ => true) (fun _ => 5)).txsAttempted = 0 ∧
      (processBatchQueue 1000 [scenarioExpired] (fun _ => true) (fun _ => 5)).queue = [] :=
  processBatchQueue_timeout 1000 scenarioExpired [] _ _ (by decide)

/-- C8: after every enqueue the queue is sorted by priority descending
with `createdAt`-ascending FIFO tie-break (`batchBefore`); and
(Scenario D) enqueueing in order [LOW, HIGH, MEDIUM] leaves the queue —
hence the head-popping dispatch order — as HIGH, MEDIUM, LOW, which is
also what the first dispatch tick pops. -/
theorem queueBatch_sorted_and_scenarioD :
    (∀ (q : List BatchQueueEntry) (b : BatchQueueEntry),
        List.Sorted batchBefore (queueBatch q b)) ∧
      ((queueBatch (queueBatch (queueBatch [] scenarioLow) scenarioHigh) scenarioMed).map
          (fun e => e.priority)
        = [BatchPriority.HIGH, BatchPriority.MEDIUM, BatchPriority.LOW]) ∧
      (((processBatchQueue 5
            (queueBatch (queueBatch (queueBatch [] scenarioLow) scenarioHigh) scenarioMed)
            (fun _ => true) (fun _ => 0)).popped.map (fun e => e.priority))
        = some BatchPriority.HIGH) := by
  refine ⟨fun q b => ?_, by decide, by decide⟩
  simpa [queueBatch, sortBatchQueue] using
    List.sorted_insertionSort batchBefore (q ++ [b])
